import Mathlib

/-
Verification development for the meeting-productivity backend
(routes.ts, services/meeting.ts, services/openai.ts, storage.ts).

The Persistence Gateway is modelled as in-memory lists; SQL ORDER BY is
modelled as a stable insertion sort.  External AI gateways are modelled as
oracle parameters; every call issued to a gateway is recorded in an
explicit call list so that "the gateway is never invoked" is expressible.
JavaScript string idioms (split(/\s+/), trim, || defaulting, truthiness)
are modelled character by character over ASCII inputs.
-/

namespace MeetMind

/-! ## JavaScript string primitives -/

/-- JS \s character class, restricted to the ASCII range (the Unicode
space characters never occur in the inputs considered here). -/
def isJsWhitespace (c : Char) : Bool :=
  c == ' ' || c == '\t' || c == '\n' || c == '\r' ||
  c == Char.ofNat 11 || c == Char.ofNat 12

/-- Line terminators that the JS regex dot refuses to match. -/
def isJsLineTerm (c : Char) : Bool :=
  c == '\n' || c == '\r' || c == Char.ofNat 0x2028 || c == Char.ofNat 0x2029

/-- JS String.prototype.trim over the modelled whitespace class. -/
def jsTrim (s : String) : String :=
  String.mk (((s.data.dropWhile isJsWhitespace).reverse.dropWhile isJsWhitespace).reverse)

/-- Worker for JS String.prototype.split(/\s+/): the Bool flag records
whether we are inside a whitespace run; the accumulator holds either the
current token being read (flag false, reversed) or the completed token
waiting to be emitted (flag true). -/
def jsSplitAux : List Char → Bool → List Char → List (List Char)
  | [], false, acc => [acc.reverse]
  | [], true, tok => [tok, []]
  | c :: rest, false, acc =>
    if isJsWhitespace c then jsSplitAux rest true acc.reverse
    else jsSplitAux rest false (c :: acc)
  | c :: rest, true, tok =>
    if isJsWhitespace c then jsSplitAux rest true tok
    else tok :: jsSplitAux rest false [c]

/-- The pieces produced by JS s.split(/\s+/) (leading or trailing
whitespace contributes empty pieces, and the empty string yields one
empty piece, exactly as in JS). -/
def jsSplitWs (s : String) : List String :=
  (jsSplitAux s.data false []).map (fun l => String.mk l)

/-- JS s.split(/\s+/).length, the quantity the source uses as a word count. -/
def jsSplitWsLen (s : String) : Nat :=
  (jsSplitAux s.data false []).length

/-- Counts maximal non-whitespace runs; the Bool flag records whether the
previous character belonged to a token. -/
def tokenRuns : List Char → Bool → Nat
  | [], _ => 0
  | c :: rest, inTok =>
    if Char.isWhitespace c then tokenRuns rest false
    else (if inTok then 0 else 1) + tokenRuns rest true

/-- Number of whitespace-delimited tokens of a string, written after the
wording of the specification (maximal non-whitespace runs). -/
def tokenCount (s : String) : Nat :=
  tokenRuns s.data false

/-! ## extractSpeakerInfo (openai.ts revision 3)

The source matches the segment against the JS regex
`^([A-Za-z\s]+):\s*(.+)$` (no flags).  Group 1 is forced to be the maximal
prefix of letters/whitespace (the class excludes the colon, so no shorter
backtracking split can succeed); `\s*` then yields whitespace back to the
greedy dot group until the remainder is a non-empty run of
non-line-terminator characters reaching the end of the input. -/

def isSpeakerClassChar (c : Char) : Bool :=
  (decide ('A' ≤ c ∧ c ≤ 'Z')) || (decide ('a' ≤ c ∧ c ≤ 'z')) || isJsWhitespace c

/-- The `(.+)$` tail: non-empty, no line terminators, consumes everything. -/
def dotPlusEnd (t : List Char) : Bool :=
  !t.isEmpty && t.all (fun c => !isJsLineTerm c)

/-- Backtracking match of `\s*(.+)$` against the text after the colon,
longest whitespace prefix first; returns group 2. -/
def matchGroup2 (afterColon : List Char) : Option (List Char) :=
  let wmax := (afterColon.takeWhile isJsWhitespace).length
  ((List.range (wmax + 1)).reverse).findSome? (fun k =>
    let t := afterColon.drop k
    if dotPlusEnd t then some t else none)

/-- Full match of `^([A-Za-z\s]+):\s*(.+)$`; returns (group 1, group 2). -/
def speakerRegexMatch (s : List Char) : Option (List Char × List Char) :=
  let p := s.takeWhile isSpeakerClassChar
  if p.isEmpty then none
  else
    match s.drop p.length with
    | ':' :: afterColon =>
      match matchGroup2 afterColon with
      | some t => some (p, t)
      | none => none
    | _ => none

/-- openai.ts revision 3 extractSpeakerInfo: pure regex speaker split,
falling back to "Unknown Speaker" with the trimmed original text. -/
def extractSpeakerInfo (s : String) : String × String :=
  match speakerRegexMatch s.data with
  | some (p, t) => (jsTrim (String.mk p), jsTrim (String.mk t))
  | none => ("Unknown Speaker", jsTrim s)

/-! ## JS || defaulting (empty string is falsy) -/

def jsOrS (s d : String) : String := if s == "" then d else s

def jsOrStr (v : Option String) (d : String) : String :=
  match v with
  | some s => if s == "" then d else s
  | none => d

/-! ## Data model (shared/schema.ts)

Ids and timestamps are integers (timestamps in milliseconds since epoch,
as JS Date.getTime produces). -/

structure Meeting where
  id : Int
  workspaceId : Int
  title : String
  createdBy : String
  status : String
  startTime : Option Int
  endTime : Option Int
  duration : Option Int
  wordCount : Option Int
  createdAt : Int
deriving Repr, DecidableEq

structure TranscriptSegment where
  meetingId : Int
  speakerName : String
  speakerAvatar : Option String
  text : String
  timestamp : Int
  confidence : Int
deriving Repr, DecidableEq

structure MeetingSummary where
  meetingId : Int
  summary : String
  keyTakeaways : List String
  decisions : List String
deriving Repr, DecidableEq

structure ActionItem where
  meetingId : Int
  task : String
  assigneeName : String
  priority : String
  dueDate : Option String
  status : String
deriving Repr, DecidableEq

/-! ## Persistence Gateway (storage.ts), modelled as in-memory lists in
insertion order. -/

structure Storage where
  meetings : List Meeting
  segments : List TranscriptSegment
  summaries : List MeetingSummary
  actionItems : List ActionItem
deriving Repr, DecidableEq

def getMeeting (st : Storage) (id : Int) : Option Meeting :=
  st.meetings.find? (fun m => m.id == id)

/-- A partial update as passed to storage.updateMeeting; only the fields
the services actually patch are represented. -/
structure MeetingPatch where
  status : Option String
  endTime : Option Int
  duration : Option Int
  wordCount : Option Int
  title : Option String
deriving Repr, DecidableEq

def emptyPatch : MeetingPatch := ⟨none, none, none, none, none⟩

def applyPatch (m : Meeting) (p : MeetingPatch) : Meeting :=
  { m with
    status := p.status.getD m.status
    endTime := match p.endTime with | some t => some t | none => m.endTime
    duration := match p.duration with | some d => some d | none => m.duration
    wordCount := match p.wordCount with | some w => some w | none => m.wordCount
    title := p.title.getD m.title }

def updateMeeting (st : Storage) (id : Int) (p : MeetingPatch) : Storage :=
  { st with meetings := st.meetings.map (fun m => if m.id == id then applyPatch m p else m) }

/-- ORDER BY created_at DESC. -/
def createdDesc (a b : Meeting) : Prop := b.createdAt ≤ a.createdAt

instance : DecidableRel createdDesc :=
  fun a b => inferInstanceAs (Decidable (b.createdAt ≤ a.createdAt))

instance : IsTotal Meeting createdDesc :=
  ⟨fun a b => Int.le_total b.createdAt a.createdAt⟩

instance : IsTrans Meeting createdDesc :=
  ⟨fun _ _ _ hab hbc => le_trans hbc hab⟩

/-- ORDER BY timestamp (ascending). -/
def tsAsc (a b : TranscriptSegment) : Prop := a.timestamp ≤ b.timestamp

instance : DecidableRel tsAsc :=
  fun a b => inferInstanceAs (Decidable (a.timestamp ≤ b.timestamp))

instance : IsTotal TranscriptSegment tsAsc :=
  ⟨fun a b => Int.le_total a.timestamp b.timestamp⟩

instance : IsTrans TranscriptSegment tsAsc :=
  ⟨fun _ _ _ hab hbc => le_trans hab hbc⟩

/-- storage.getWorkspaceMeetings: filter by workspace, newest first, LIMIT. -/
def getWorkspaceMeetings (st : Storage) (workspaceId : Int) (limit : Nat) : List Meeting :=
  ((st.meetings.filter (fun m => m.workspaceId == workspaceId)).insertionSort createdDesc).take limit

/-- storage.getMeetingTranscript: segments of the meeting ordered by timestamp. -/
def getMeetingTranscript (st : Storage) (id : Int) : List TranscriptSegment :=
  (st.segments.filter (fun s => s.meetingId == id)).insertionSort tsAsc

def getMeetingSummary (st : Storage) (id : Int) : Option MeetingSummary :=
  st.summaries.find? (fun s => s.meetingId == id)

/-- storage.getActionItems: ORDER BY created_at ascending = insertion order. -/
def getActionItems (st : Storage) (id : Int) : List ActionItem :=
  st.actionItems.filter (fun a => a.meetingId == id)

structure MeetingDetails where
  meeting : Meeting
  transcriptSegments : List TranscriptSegment
  summary : Option MeetingSummary
  actionItems : List ActionItem
deriving Repr, DecidableEq

def getMeetingWithDetails (st : Storage) (id : Int) : Option MeetingDetails :=
  match getMeeting st id with
  | none => none
  | some m =>
    some ⟨m, getMeetingTranscript st id, getMeetingSummary st id, getActionItems st id⟩

def createMeetingSummary (st : Storage) (id : Int)
    (summary : String) (keyTakeaways decisions : List String) : Storage :=
  { st with summaries := st.summaries ++ [⟨id, summary, keyTakeaways, decisions⟩] }

/-- storage.createActionItem; status defaults to "pending" per the schema. -/
def createActionItem (st : Storage) (id : Int)
    (task assignee priority : String) (dueDate : Option String) : Storage :=
  { st with actionItems := st.actionItems ++ [⟨id, task, assignee, priority, dueDate, "pending"⟩] }

def appendSegment (st : Storage) (seg : TranscriptSegment) : Storage :=
  { st with segments := st.segments ++ [seg] }

/-- All stored summaries of one meeting (for stating "exactly one summary"). -/
def summariesFor (st : Storage) (id : Int) : List MeetingSummary :=
  st.summaries.filter (fun s => s.meetingId == id)

/-- All stored action items of one meeting. -/
def actionItemsFor (st : Storage) (id : Int) : List ActionItem :=
  st.actionItems.filter (fun a => a.meetingId == id)

/-! ## Speech-to-Text Gateway (openai.ts transcribeAudio)

Audio buffers are byte lists.  The network call is an oracle
`api : List Nat → Except Unit String` (ok = response text, error = thrown
or non-ok response).  The second component of the result collects every
buffer actually sent to the gateway. -/

/-- openai.ts revision 1: guard at 1024 bytes; any failure yields an empty
transcript; the response text is trimmed. -/
def transcribeAudioRev1 (api : List Nat → Except Unit String)
    (audioBuffer : List Nat) : String × List (List Nat) :=
  if audioBuffer.length == 0 then ("", [])
  else if audioBuffer.length < 1024 then ("", [])
  else
    match api audioBuffer with
    | Except.ok text => (jsTrim text, [audioBuffer])
    | Except.error _ => ("", [audioBuffer])

/-- openai.ts revision 2: guard at 5000 bytes (the temp-file size re-check
compares the same length, so it is subsumed); failures yield "". -/
def transcribeAudioRev2 (api : List Nat → Except Unit String)
    (audioBuffer : List Nat) : String × List (List Nat) :=
  if audioBuffer.length == 0 then ("", [])
  else if audioBuffer.length < 5000 then ("", [])
  else
    match api audioBuffer with
    | Except.ok text => (jsTrim text, [audioBuffer])
    | Except.error _ => ("", [audioBuffer])

/-! ## Summarization Gateway (openai.ts revision 3 generateMeetingSummary)

The model response is a dynamically shaped JSON object; missing fields are
`none`.  The whole network call plus JSON.parse is an oracle
`Except Unit RawSummary` (error = anything thrown inside the try). -/

structure RawActionItem where
  task : Option String
  assignee : Option String
  priority : Option String
  dueDate : Option String
deriving Repr, DecidableEq

structure RawSummary where
  title : Option String
  summary : Option String
  keyTakeaways : Option (List String)
  decisions : Option (List String)
  actionItems : Option (List RawActionItem)
deriving Repr, DecidableEq

structure SummaryActionItem where
  task : String
  assignee : String
  priority : String
  dueDate : Option String
deriving Repr, DecidableEq

structure MeetingSummaryData where
  title : String
  summary : String
  keyTakeaways : List String
  decisions : List String
  actionItems : List SummaryActionItem
deriving Repr, DecidableEq

/-- Field-by-field defaulting applied to each raw action item
(task/assignee by || with empty-string falsiness, priority whitelisted to
high/medium/low, dueDate || undefined). -/
def normalizeRawItem (it : RawActionItem) : SummaryActionItem :=
  { task := jsOrStr it.task "Task description unavailable"
    assignee := jsOrStr it.assignee "Unknown"
    priority :=
      match it.priority with
      | some p => if p == "high" || p == "medium" || p == "low" then p else "medium"
      | none => "medium"
    dueDate :=
      match it.dueDate with
      | some d => if d == "" then none else some d
      | none => none }

/-- openai.ts revision 3 generateMeetingSummary: returns a placeholder for
an empty transcript without calling the model, applies defaults to a
successful response, and converts any thrown error into a degenerate
summary instead of propagating it. -/
def openaiGenerateMeetingSummary (api : Except Unit RawSummary)
    (transcript meetingTitle : String) : MeetingSummaryData :=
  if transcript == "" || jsTrim transcript == "" then
    { title := jsOrS meetingTitle "Meeting Summary"
      summary := "This meeting was recorded but no transcript content was captured."
      keyTakeaways := ["No audio content was transcribed"]
      decisions := ["No decisions recorded"]
      actionItems := [] }
  else
    match api with
    | Except.ok r =>
      { title := jsOrStr r.title (jsOrS meetingTitle "Meeting Summary")
        summary := jsOrStr r.summary
          "Meeting summary could not be generated from the available transcript."
        keyTakeaways := r.keyTakeaways.getD ["Meeting content analysis unavailable"]
        decisions := r.decisions.getD []
        actionItems := (r.actionItems.getD []).map normalizeRawItem }
    | Except.error _ =>
      { title := jsOrS meetingTitle "Meeting Summary"
        summary := "Meeting summary generation failed due to processing error."
        keyTakeaways := ["Summary generation encountered an error"]
        decisions := []
        actionItems := [] }

/-! ## Meeting Orchestrator (services/meeting.ts revision 2)

`now` is the current wall-clock time in milliseconds.  Scheduled
asynchronous work (the setTimeout that fires summary generation after
stopMeeting) is returned as an explicit list of meeting ids, not applied
to the storage, reflecting that it is off the critical path. -/

inductive ServiceError
  | notFound
deriving Repr, DecidableEq

/-- MeetingService.startMeeting. wordCount and participantCount default to
0 and createdAt to now per the schema defaults. -/
def startMeeting (st : Storage) (now : Int) (newId : Int)
    (workspaceId : Int) (userId : String) (title : String) : Storage × Meeting :=
  let m : Meeting :=
    { id := newId, workspaceId := workspaceId, title := title, createdBy := userId
      status := "recording", startTime := some now, endTime := none
      duration := none, wordCount := some 0, createdAt := now }
  ({ st with meetings := st.meetings ++ [m] }, m)

/-- MeetingService.stopMeeting: throws "Meeting not found" when absent;
otherwise duration = Math.floor((endTime - startTime) / 1000), or 0
without a startTime; sets status completed and endTime; schedules summary
generation via setTimeout (returned as the pending list). -/
def stopMeeting (st : Storage) (now : Int) (meetingId : Int) :
    Except ServiceError (Storage × List Int) :=
  match getMeeting st meetingId with
  | none => Except.error ServiceError.notFound
  | some meeting =>
    let duration : Int :=
      match meeting.startTime with
      | some t => Int.fdiv (now - t) 1000
      | none => 0
    Except.ok
      (updateMeeting st meetingId
        { emptyPatch with status := some "completed", endTime := some now
                          duration := some duration },
       [meetingId])

/-- MeetingService.addTranscriptSegment (revision 2).  A missing or empty
speakerName (JS falsiness) triggers extractSpeakerInfo; the stored name
falls back to "Unknown Speaker"; the word count is bumped by the JS
split(/\s+/) length of the stored text. -/
def serviceAddTranscriptSegment (st : Storage) (now : Int) (meetingId : Int)
    (text : String) (speakerName : Option String) (speakerAvatar : Option String) : Storage :=
  let useExtracted : Bool :=
    match speakerName with
    | none => true
    | some s => s == ""
  let pair := if useExtracted then extractSpeakerInfo text else (speakerName.getD "", text)
  let storedName := if pair.1 == "" then "Unknown Speaker" else pair.1
  let st1 := appendSegment st ⟨meetingId, storedName, speakerAvatar, pair.2, now, 95⟩
  match getMeeting st1 meetingId with
  | some meeting =>
    let wc : Int := meeting.wordCount.getD 0 + Int.ofNat (jsSplitWsLen pair.2)
    updateMeeting st1 meetingId { emptyPatch with wordCount := some wc }
  | none => st1

/-- One Summarization Gateway invocation as issued by the service. -/
structure SummCall where
  transcript : String
  title : String
deriving Repr, DecidableEq

/-- The speaker-prefixed transcript concatenation the service feeds to the
Summarization Gateway. -/
def fullTranscriptOf (st : Storage) (meetingId : Int) : String :=
  String.intercalate "\n"
    ((getMeetingTranscript st meetingId).map (fun seg => seg.speakerName ++ ": " ++ seg.text))

/-- MeetingService.generateMeetingSummary (revision 2): missing meeting is
a logged no-op; an empty transcript persists the placeholder summary and
returns without touching the gateway; otherwise the gateway result
(itself never a thrown error, see openaiGenerateMeetingSummary) is
persisted: optional AI title overwrite, one summary row, one action-item
row per item. -/
def serviceGenerateMeetingSummary (sumApi : Except Unit RawSummary)
    (st : Storage) (meetingId : Int) : Storage × List SummCall :=
  match getMeeting st meetingId with
  | none => (st, [])
  | some meeting =>
    let fullTranscript := fullTranscriptOf st meetingId
    if jsTrim fullTranscript == "" then
      (createMeetingSummary st meetingId
        "This meeting was recorded but no transcript content was captured."
        ["No audio content was transcribed"]
        ["No decisions recorded"], [])
    else
      let summaryData := openaiGenerateMeetingSummary sumApi fullTranscript meeting.title
      let st1 :=
        if summaryData.title != "" && summaryData.title != "New Meeting" then
          updateMeeting st meetingId { emptyPatch with title := some summaryData.title }
        else st
      let st2 := createMeetingSummary st1 meetingId
        summaryData.summary summaryData.keyTakeaways summaryData.decisions
      let st3 := summaryData.actionItems.foldl
        (fun acc it => createActionItem acc meetingId it.task it.assignee it.priority it.dueDate)
        st2
      (st3, [⟨fullTranscript, meeting.title⟩])

/-- MeetingService.processCompleteAudio (revision 2).  `sttText` is the
text the Speech-to-Text Gateway resolved for the complete buffer
(transcribeAudio in openai.ts revision 3 never throws).  On non-empty
text: one segment is added, the word count is then overwritten with the
split count of the raw text, and summary generation runs inline. -/
def processCompleteAudio (sumApi : Except Unit RawSummary) (sttText : String)
    (st : Storage) (now : Int) (meetingId : Int) : Storage × String × List SummCall :=
  if jsTrim sttText != "" then
    let st1 := serviceAddTranscriptSegment st now meetingId sttText none none
    let st2 :=
      match getMeeting st1 meetingId with
      | some _ =>
        updateMeeting st1 meetingId
          { emptyPatch with wordCount := some (Int.ofNat (jsSplitWsLen sttText)) }
      | none => st1
    let r := serviceGenerateMeetingSummary sumApi st2 meetingId
    (r.1, sttText, r.2)
  else
    (st, sttText, [])

/-! ## Chat Context Assembler (meeting.ts getMeetingContext and the
POST /api/chat selection in routes.ts) -/

def segLine (seg : TranscriptSegment) : String :=
  seg.speakerName ++ ": " ++ seg.text ++ "\n"

/-- The discussion-points section of a context block: first ten segments. -/
def discussionPart (segs : List TranscriptSegment) : String :=
  if segs.length > 0 then
    "\nKey Discussion Points:\n" ++ String.join ((segs.take 10).map segLine)
  else ""

def actionItemLine (it : ActionItem) : String :=
  "- " ++ it.task ++ " (Assigned to: " ++ it.assigneeName ++ ", Priority: " ++ it.priority ++ ")\n"

def summaryPart (summary : Option MeetingSummary) : String :=
  match summary with
  | some s =>
    "\nSummary: " ++ s.summary ++ "\n"
    ++ "\nKey Takeaways:\n" ++ String.intercalate "\n" (s.keyTakeaways.map (fun t => "- " ++ t)) ++ "\n"
    ++ "\nDecisions:\n" ++ String.intercalate "\n" (s.decisions.map (fun d => "- " ++ d)) ++ "\n"
  | none => ""

def actionItemsPart (items : List ActionItem) : String :=
  if items.length > 0 then "\nAction Items:\n" ++ String.join (items.map actionItemLine)
  else ""

/-- The block getMeetingContext emits for one meeting (createdAt prints
through toString where JS interpolates the Date). -/
def blockText (d : MeetingDetails) : String :=
  "\n=== Meeting: " ++ d.meeting.title ++ " ===\n"
  ++ "Date: " ++ toString d.meeting.createdAt ++ "\n"
  ++ summaryPart d.summary
  ++ actionItemsPart d.actionItems
  ++ discussionPart d.transcriptSegments

/-- One loop iteration of getMeetingContext: a missing meeting contributes
nothing (the JS continue). -/
def meetingBlock (st : Storage) (id : Int) : String :=
  match getMeetingWithDetails st id with
  | none => ""
  | some d => blockText d

/-- MeetingService.getMeetingContext: the context accumulator over the
requested ids in order. -/
def getMeetingContext (st : Storage) (meetingIds : List Int) : String :=
  meetingIds.foldl (fun ctx id => ctx ++ meetingBlock st id) ""

/-- The POST /api/chat context selection: an absent or empty meetingIds
list falls back to the five most recent meetings of the workspace. -/
def chatContext (st : Storage) (workspaceId : Int) (meetingIds : Option (List Int)) : String :=
  match meetingIds with
  | some l =>
    if l.length > 0 then getMeetingContext st l
    else getMeetingContext st ((getWorkspaceMeetings st workspaceId 5).map (fun m => m.id))
  | none => getMeetingContext st ((getWorkspaceMeetings st workspaceId 5).map (fun m => m.id))

/-! ## Transport Layer: per-connection WebSocket handler (routes.ts,
chunked revision)

Per-connection mutable state of the wss connection closure.  Inbound
traffic is either undecodable JSON or a decoded envelope; the handler
reads the payload meetingId only for start-meeting.  The call into
meetingService.processAudioChunk is recorded as an event; its outcome is
an oracle `proc` (ok = resolved transcription text, error = the awaited
call threw). -/

structure ConnState where
  currentMeetingId : Option Int
  audioChunks : List (List Nat)
  lastProcessTime : Int
deriving Repr, DecidableEq

inductive ClientMsg
  | startMeeting (meetingId : Int)
  | audioChunk (meetingId : Int) (audio : List Nat)
  | stopMeeting
  | otherType
deriving Repr, DecidableEq

inductive WsInbound
  | invalidJson
  | valid (m : ClientMsg)
deriving Repr, DecidableEq

inductive ServerMsg
  | meetingStarted (meetingId : Int)
  | transcriptSegmentMsg (meetingId : Int) (text : String) (timestamp : Int)
  | errorMsg (message : String)
  | meetingStopped
deriving Repr, DecidableEq

inductive WsEvent
  | send (m : ServerMsg)
  | processAudio (meetingId : Int) (buffer : List Nat)
deriving Repr, DecidableEq

/-- One ws.on message callback execution at wall-clock time `now` (ms).
JS truthiness of currentMeetingId makes meeting id 0 count as no session. -/
def wsStep (proc : Int → List Nat → Except Unit String) (now : Int)
    (s : ConnState) (msg : WsInbound) : ConnState × List WsEvent :=
  match msg with
  | WsInbound.invalidJson =>
    (s, [WsEvent.send (ServerMsg.errorMsg "Invalid message format")])
  | WsInbound.valid (ClientMsg.startMeeting mid) =>
    ({ s with currentMeetingId := some mid },
     [WsEvent.send (ServerMsg.meetingStarted mid)])
  | WsInbound.valid (ClientMsg.audioChunk _payloadMid audio) =>
    match s.currentMeetingId with
    | some cmid =>
      if cmid != 0 then
        let chunks := s.audioChunks ++ [audio]
        let hasEnoughData := decide (chunks.length ≥ 3)
        let hasTimedOut := decide (now - s.lastProcessTime > 10000)
        if hasEnoughData || hasTimedOut then
          let combined := chunks.flatten
          match proc cmid combined with
          | Except.ok text =>
            let sends :=
              if jsTrim text != "" then
                [WsEvent.send (ServerMsg.transcriptSegmentMsg cmid text now)]
              else []
            ({ s with audioChunks := [], lastProcessTime := now },
             WsEvent.processAudio cmid combined :: sends)
          | Except.error _ =>
            ({ s with audioChunks := [], lastProcessTime := now },
             [WsEvent.processAudio cmid combined,
              WsEvent.send (ServerMsg.errorMsg "Failed to process audio batch")])
        else
          ({ s with audioChunks := chunks }, [])
      else (s, [])
    | none => (s, [])
  | WsInbound.valid ClientMsg.stopMeeting =>
    match s.currentMeetingId with
    | some cmid =>
      if cmid != 0 then
        ({ s with currentMeetingId := none }, [WsEvent.send ServerMsg.meetingStopped])
      else (s, [])
    | none => (s, [])
  | WsInbound.valid ClientMsg.otherType => (s, [])

/-- A whole inbound trace: pairs of (arrival time, message), processed in
arrival order, events concatenated. -/
def wsRun (proc : Int → List Nat → Except Unit String)
    (msgs : List (Int × WsInbound)) (s : ConnState) : ConnState × List WsEvent :=
  match msgs with
  | [] => (s, [])
  | (now, m) :: rest =>
    let r1 := wsStep proc now s m
    let r2 := wsRun proc rest r1.1
    (r2.1, r1.2 ++ r2.2)

/-! ## Concrete fixtures used by counterexamples and witnesses -/

/-- Oracle: processAudioChunk resolves with an empty transcription. -/
def procEmpty : Int → List Nat → Except Unit String := fun _ _ => Except.ok ""

/-- Oracle: the transcription HTTP call succeeds with an empty body. -/
def apiOk : List Nat → Except Unit String := fun _ => Except.ok ""

/-- 400 bytes of value 1, ingested in the first session. -/
def chunkA : List Nat := List.replicate 400 1

/-- 400 bytes of value 2, ingested in the first session. -/
def chunkB : List Nat := List.replicate 400 2

/-- 400 bytes of value 3, ingested in the second session. -/
def chunkC : List Nat := List.replicate 400 3

/-- Trace: start meeting 7, ingest two chunks (no flush: fewer than 3
chunks, no 10 s timeout), stop, immediately start meeting 7 again, ingest
one more chunk, which triggers the 3-chunk flush. -/
def traceC1 : List (Int × WsInbound) :=
  [ (0, WsInbound.valid (ClientMsg.startMeeting 7)),
    (0, WsInbound.valid (ClientMsg.audioChunk 7 chunkA)),
    (0, WsInbound.valid (ClientMsg.audioChunk 7 chunkB)),
    (0, WsInbound.valid ClientMsg.stopMeeting),
    (0, WsInbound.valid (ClientMsg.startMeeting 7)),
    (0, WsInbound.valid (ClientMsg.audioChunk 7 chunkC)) ]

/-- A meeting in progress (fixture). -/
def mRecording : Meeting :=
  { id := 1, workspaceId := 1, title := "Standup", createdBy := "u1"
    status := "recording", startTime := some 1000, endTime := none
    duration := none, wordCount := some 0, createdAt := 1000 }

/-- A completed meeting with no summary yet (fixture). -/
def mCompleted : Meeting :=
  { id := 1, workspaceId := 1, title := "Team Sync", createdBy := "u1"
    status := "completed", startTime := some 0, endTime := some 9000
    duration := some 9, wordCount := some 0, createdAt := 0 }

/-- Storage with one recording meeting and nothing else (fixture). -/
def stRecording : Storage := ⟨[mRecording], [], [], []⟩

/-- Storage with one completed meeting and nothing else (fixture). -/
def stCompleted : Storage := ⟨[mCompleted], [], [], []⟩

/-- Storage with one completed meeting and one transcript segment (fixture). -/
def stWithSegment : Storage :=
  ⟨[mCompleted], [⟨1, "Alice", none, "hello", 0, 95⟩], [], []⟩

/-- The storage state after full-conversation processing of the raw
transcription "Alice: hello world" on the completed meeting (fixture for
the word-count counterexample; the summarization oracle fails, which only
adds the degenerate summary and is irrelevant to the word count). -/
def finalC6 : Storage :=
  (processCompleteAudio (Except.error ()) "Alice: hello world" stCompleted 5 1).1

/-- A completed workspace meeting with a given id and creation time
(fixture for the chat-context claim). -/
def chatMeeting (i : Int) (ts : Int) : Meeting :=
  { id := i, workspaceId := 1, title := "M", createdBy := "u"
    status := "completed", startTime := none, endTime := none
    duration := none, wordCount := some 0, createdAt := ts }

/-- Workspace 1 with six meetings; the oldest one (id 1, createdAt 10)
falls outside the five most recent (fixture). -/
def stChat : Storage :=
  ⟨[chatMeeting 1 10, chatMeeting 2 20, chatMeeting 3 30,
    chatMeeting 4 40, chatMeeting 5 50, chatMeeting 6 60], [], [], []⟩

/-- Whitespace-token count of the timestamp-ordered transcript
concatenation, written after the wording of the specification (segment
texts joined by a single separator so that token boundaries are kept). -/
def transcriptTokenCount (st : Storage) (id : Int) : Nat :=
  tokenCount (String.intercalate " " ((getMeetingTranscript st id).map (fun s => s.text)))

/-! ## Theorems -/

set_option maxRecDepth 4000

theorem jsTrim_empty : jsTrim "" = "" := rfl

/-! ### Helper lemmas about storage lookups under updates -/

theorem find?_map_congr {α : Type} (l : List α) (f : α → α) (p : α → Bool)
    (h1 : ∀ x, p (f x) = p x) (h2 : ∀ x, p x = true → f x = x) :
    (l.map f).find? p = l.find? p := by
  induction l with
  | nil => rfl
  | cons a t ih =>
    have hfa : p (f a) = p a := h1 a
    cases hpa : p a with
    | true =>
      rw [hpa] at hfa
      simp [List.map_cons, List.find?_cons, hpa, hfa, h2 a hpa]
    | false =>
      rw [hpa] at hfa
      simp [List.map_cons, List.find?_cons, hpa, hfa, ih]

theorem applyPatch_id (m : Meeting) (p : MeetingPatch) : (applyPatch m p).id = m.id := rfl

theorem getMeeting_updateMeeting_self (st : Storage) (id : Int) (p : MeetingPatch) :
    getMeeting (updateMeeting st id p) id
      = (getMeeting st id).map (fun m => applyPatch m p) := by
  unfold getMeeting updateMeeting
  simp only
  rw [List.find?_map (fun m => if m.id == id then applyPatch m p else m) st.meetings]
  have hq : ((fun m : Meeting => m.id == id) ∘ fun m => if m.id == id then applyPatch m p else m)
      = fun m : Meeting => m.id == id := by
    funext m
    by_cases hm : (m.id == id) = true
    · simp [Function.comp, hm, applyPatch_id]
    · simp [Function.comp, hm]
  rw [hq]
  cases hfind : st.meetings.find? (fun m => m.id == id) with
  | none => rfl
  | some m =>
    have hmid := List.find?_some hfind
    simp only at hmid
    simp [hmid]
    intro hcontra
    exact absurd (by simpa using hmid) hcontra

theorem getMeeting_updateMeeting_other (st : Storage) (id j : Int) (p : MeetingPatch)
    (hj : j ≠ id) : getMeeting (updateMeeting st id p) j = getMeeting st j := by
  unfold getMeeting updateMeeting
  simp only
  refine find?_map_congr _ _ _ ?_ ?_
  · intro x
    by_cases hx : x.id == id
    · simp only [if_pos hx, applyPatch_id]
    · simp only [if_neg hx]
  · intro x hx
    have : x.id = j := by simpa using hx
    rw [if_neg]
    simp [this, hj]

theorem summaries_updateMeeting (st : Storage) (id : Int) (p : MeetingPatch) :
    (updateMeeting st id p).summaries = st.summaries := rfl

theorem actionItems_updateMeeting (st : Storage) (id : Int) (p : MeetingPatch) :
    (updateMeeting st id p).actionItems = st.actionItems := rfl

theorem meetings_createMeetingSummary (st : Storage) (id : Int) (s : String)
    (kt ds : List String) : (createMeetingSummary st id s kt ds).meetings = st.meetings := rfl

theorem meetings_createActionItem (st : Storage) (id : Int) (task assignee priority : String)
    (dd : Option String) :
    (createActionItem st id task assignee priority dd).meetings = st.meetings := rfl

theorem meetings_foldl_createActionItem (l : List SummaryActionItem) (st : Storage) (id : Int) :
    (l.foldl (fun acc it => createActionItem acc id it.task it.assignee it.priority it.dueDate)
      st).meetings = st.meetings := by
  induction l generalizing st with
  | nil => rfl
  | cons a t ih => rw [List.foldl_cons, ih, meetings_createActionItem]

theorem getMeeting_eq_of_meetings_eq (st1 st2 : Storage) (j : Int)
    (h : st1.meetings = st2.meetings) : getMeeting st1 j = getMeeting st2 j := by
  unfold getMeeting
  rw [h]

/-- Claim C4: any audio buffer below the minimum-byte threshold (1024
bytes in openai.ts revision 1, 5000 bytes in revision 2) yields an empty
transcript and the Speech-to-Text Gateway is never invoked: the recorded
request list is empty. -/
theorem claim_c4_small_buffer_no_gateway (api : List Nat → Except Unit String)
    (buf : List Nat) :
    (buf.length < 1024 → transcribeAudioRev1 api buf = ("", []))
    ∧ (buf.length < 5000 → transcribeAudioRev2 api buf = ("", [])) := by
  constructor
  · intro h
    simp [transcribeAudioRev1, h]
  · intro h
    simp [transcribeAudioRev2, h]

/-- Claim C4, witness on a 1-byte buffer. -/
theorem claim_c4_witness :
    transcribeAudioRev1 apiOk [9] = ("", []) ∧ transcribeAudioRev2 apiOk [9] = ("", []) :=
  ⟨(claim_c4_small_buffer_no_gateway apiOk [9]).1 (by decide),
   (claim_c4_small_buffer_no_gateway apiOk [9]).2 (by decide)⟩

/-- Claim C7: stopping a missing meeting fails with NotFound; stopping an
existing one sets status completed and endTime = now, computes duration
as the floored whole-second difference now - startTime (0 when startTime
is absent), leaves all transcript, summary and action-item data and all
other meetings untouched, and schedules summary generation for the
meeting asynchronously (the pending list) instead of running it inline
(no summary row is added by stop itself). -/
theorem claim_c7_stop_meeting (st : Storage) (now : Int) (meetingId : Int) :
    (getMeeting st meetingId = none →
      stopMeeting st now meetingId = Except.error ServiceError.notFound)
    ∧ (∀ m, getMeeting st meetingId = some m →
        ∃ st2, stopMeeting st now meetingId = Except.ok (st2, [meetingId])
          ∧ getMeeting st2 meetingId = some
              { m with
                status := "completed"
                endTime := some now
                duration := some (match m.startTime with
                  | some t => Int.fdiv (now - t) 1000
                  | none => 0) }
          ∧ st2.segments = st.segments
          ∧ st2.summaries = st.summaries
          ∧ st2.actionItems = st.actionItems
          ∧ (∀ j, j ≠ meetingId → getMeeting st2 j = getMeeting st j)) := by
  constructor
  · intro h
    simp [stopMeeting, h]
  · intro m hm
    refine ⟨updateMeeting st meetingId
      { emptyPatch with
        status := some "completed"
        endTime := some now
        duration := some (match m.startTime with
          | some t => Int.fdiv (now - t) 1000
          | none => 0) }, ?_, ?_, rfl, rfl, rfl, ?_⟩
    · simp [stopMeeting, hm]
    · rw [getMeeting_updateMeeting_self, hm]
      rfl
    · intro j hj
      exact getMeeting_updateMeeting_other st meetingId j _ hj

/-- Claim C7, witness: both the missing-meeting case (id 2) and the
successful stop of the recording meeting (id 1, duration 4 whole
seconds). -/
theorem claim_c7_witness :
    stopMeeting stRecording 5500 2 = Except.error ServiceError.notFound
    ∧ ∃ st2, stopMeeting stRecording 5500 1 = Except.ok (st2, [1])
        ∧ getMeeting st2 1 = some
            { mRecording with
              status := "completed"
              endTime := some 5500
              duration := some (match mRecording.startTime with
                | some t => Int.fdiv (5500 - t) 1000
                | none => 0) }
        ∧ st2.segments = stRecording.segments
        ∧ st2.summaries = stRecording.summaries
        ∧ st2.actionItems = stRecording.actionItems
        ∧ (∀ j, j ≠ 1 → getMeeting st2 j = getMeeting stRecording j) :=
  ⟨(claim_c7_stop_meeting stRecording 5500 2).1 (by decide),
   (claim_c7_stop_meeting stRecording 5500 1).2 mRecording (by decide)⟩

/-- Claim C2: for an existing meeting with zero transcript segments,
generateMeetingSummary (meeting.ts revision 2) persists exactly one
placeholder MeetingSummary, creates no action items, leaves the meetings
untouched, and issues no Summarization Gateway call. -/
theorem claim_c2_empty_transcript_placeholder (sumApi : Except Unit RawSummary)
    (st : Storage) (meetingId : Int) (m : Meeting)
    (hm : getMeeting st meetingId = some m)
    (hseg : getMeetingTranscript st meetingId = [])
    (hsum : summariesFor st meetingId = []) :
    summariesFor (serviceGenerateMeetingSummary sumApi st meetingId).1 meetingId
      = [⟨meetingId, "This meeting was recorded but no transcript content was captured.",
          ["No audio content was transcribed"], ["No decisions recorded"]⟩]
    ∧ (serviceGenerateMeetingSummary sumApi st meetingId).1.actionItems = st.actionItems
    ∧ (serviceGenerateMeetingSummary sumApi st meetingId).1.meetings = st.meetings
    ∧ (serviceGenerateMeetingSummary sumApi st meetingId).2 = [] := by
  have hfull : fullTranscriptOf st meetingId = "" := by
    rw [fullTranscriptOf, hseg]
    rfl
  have hres : serviceGenerateMeetingSummary sumApi st meetingId
      = (createMeetingSummary st meetingId
          "This meeting was recorded but no transcript content was captured."
          ["No audio content was transcribed"] ["No decisions recorded"], []) := by
    simp [serviceGenerateMeetingSummary, hm, hfull, jsTrim_empty]
  rw [hres]
  refine ⟨?_, rfl, rfl, rfl⟩
  have hsum2 : st.summaries.filter (fun s => s.meetingId == meetingId) = [] := hsum
  simp [summariesFor, createMeetingSummary, List.filter_append, hsum2]

/-- Claim C2, witness on the completed meeting with no segments. -/
theorem claim_c2_witness :
    summariesFor (serviceGenerateMeetingSummary (Except.error ()) stCompleted 1).1 1
      = [⟨1, "This meeting was recorded but no transcript content was captured.",
          ["No audio content was transcribed"], ["No decisions recorded"]⟩]
    ∧ (serviceGenerateMeetingSummary (Except.error ()) stCompleted 1).1.actionItems
        = stCompleted.actionItems
    ∧ (serviceGenerateMeetingSummary (Except.error ()) stCompleted 1).1.meetings
        = stCompleted.meetings
    ∧ (serviceGenerateMeetingSummary (Except.error ()) stCompleted 1).2 = [] :=
  claim_c2_empty_transcript_placeholder (Except.error ()) stCompleted 1 mCompleted
    (by decide) (by decide) (by decide)

/-- Claim C3: when the Summarization Gateway call fails (the awaited
model call resolves to an error) for a completed meeting with a
non-empty transcript and no summary yet, the failure is absorbed and a
degenerate summary row is persisted, so the meeting ends up with exactly
one MeetingSummary; no action items are created. -/
theorem claim_c3_gateway_failure_degenerate_summary
    (st : Storage) (meetingId : Int) (m : Meeting)
    (hm : getMeeting st meetingId = some m)
    (_hcomp : m.status = "completed")
    (hsum : summariesFor st meetingId = [])
    (hne : jsTrim (fullTranscriptOf st meetingId) ≠ "") :
    summariesFor (serviceGenerateMeetingSummary (Except.error ()) st meetingId).1 meetingId
      = [⟨meetingId, "Meeting summary generation failed due to processing error.",
          ["Summary generation encountered an error"], []⟩]
    ∧ (serviceGenerateMeetingSummary (Except.error ()) st meetingId).1.actionItems
        = st.actionItems := by
  have hne2 : fullTranscriptOf st meetingId ≠ "" := by
    intro h
    exact hne (by rw [h, jsTrim_empty])
  have hdata : openaiGenerateMeetingSummary (Except.error ())
      (fullTranscriptOf st meetingId) m.title
      = { title := jsOrS m.title "Meeting Summary"
          summary := "Meeting summary generation failed due to processing error."
          keyTakeaways := ["Summary generation encountered an error"]
          decisions := []
          actionItems := [] } := by
    simp [openaiGenerateMeetingSummary, hne, hne2]
  have hsum2 : st.summaries.filter (fun s => s.meetingId == meetingId) = [] := hsum
  constructor
  · simp only [serviceGenerateMeetingSummary, hm, hdata]
    rw [if_neg (by simpa using hne)]
    simp only [List.foldl_nil]
    split
    · simp [summariesFor, createMeetingSummary, summaries_updateMeeting,
        List.filter_append, hsum2]
    · simp [summariesFor, createMeetingSummary, List.filter_append, hsum2]
  · simp only [serviceGenerateMeetingSummary, hm, hdata]
    rw [if_neg (by simpa using hne)]
    simp only [List.foldl_nil]
    split
    · simp [createMeetingSummary, actionItems_updateMeeting]
    · simp [createMeetingSummary]

/-- Claim C3, witness on a completed meeting holding one transcript
segment, with a failing gateway. -/
theorem claim_c3_witness :
    summariesFor (serviceGenerateMeetingSummary (Except.error ()) stWithSegment 1).1 1
      = [⟨1, "Meeting summary generation failed due to processing error.",
          ["Summary generation encountered an error"], []⟩]
    ∧ (serviceGenerateMeetingSummary (Except.error ()) stWithSegment 1).1.actionItems
        = stWithSegment.actionItems :=
  claim_c3_gateway_failure_degenerate_summary stWithSegment 1 mCompleted
    (by decide) (by decide) (by decide) (by decide)

/-! ### Word-count helper lemmas (claim C6) -/

theorem getMeeting_appendSegment (st : Storage) (seg : TranscriptSegment) (j : Int) :
    getMeeting (appendSegment st seg) j = getMeeting st j := rfl

theorem getMeeting_wordCount_title_patch (st : Storage) (id j : Int) (t : String) :
    (getMeeting (updateMeeting st id { emptyPatch with title := some t }) j).map
        Meeting.wordCount
      = (getMeeting st j).map Meeting.wordCount := by
  by_cases hj : j = id
  · subst hj
    rw [getMeeting_updateMeeting_self]
    cases getMeeting st j <;> rfl
  · rw [getMeeting_updateMeeting_other st id j _ hj]

theorem getMeeting_createSummary_fold (l : List SummaryActionItem) (stx : Storage)
    (id j : Int) (s : String) (kt ds : List String) :
    getMeeting
        (l.foldl (fun acc it => createActionItem acc id it.task it.assignee it.priority it.dueDate)
          (createMeetingSummary stx id s kt ds)) j
      = getMeeting stx j := by
  apply getMeeting_eq_of_meetings_eq
  rw [meetings_foldl_createActionItem, meetings_createMeetingSummary]

/-- Summary generation never changes the stored word count of any meeting. -/
theorem wordCount_generateSummary (api : Except Unit RawSummary) (st : Storage) (id j : Int) :
    (getMeeting (serviceGenerateMeetingSummary api st id).1 j).map Meeting.wordCount
      = (getMeeting st j).map Meeting.wordCount := by
  unfold serviceGenerateMeetingSummary
  cases hm : getMeeting st id with
  | none => rfl
  | some meeting =>
    dsimp only
    split
    · rfl
    · split
      · rw [getMeeting_createSummary_fold]
        exact getMeeting_wordCount_title_patch st id j _
      · rw [getMeeting_createSummary_fold]

theorem getMeeting_serviceAdd_isSome (st : Storage) (now meetingId : Int) (text : String)
    (spk av : Option String) (m : Meeting) (hm : getMeeting st meetingId = some m) :
    ∃ m1, getMeeting (serviceAddTranscriptSegment st now meetingId text spk av) meetingId
      = some m1 := by
  unfold serviceAddTranscriptSegment
  dsimp only
  rw [getMeeting_appendSegment, hm]
  dsimp only
  rw [getMeeting_updateMeeting_self, getMeeting_appendSegment, hm]
  exact ⟨_, rfl⟩

/-- Claim C6, counterexample.  Full-conversation processing of the raw
transcription "Alice: hello world" on the completed meeting stores the
segment text "hello world" (extractSpeakerInfo strips the speaker
prefix), yet persists wordCount 3, the split count of the raw text, while
the whitespace-token count of the timestamp-ordered transcript
concatenation is 2. -/
theorem claim_c6_counterexample :
    (getMeeting finalC6 1).map Meeting.status = some "completed"
    ∧ (getMeeting finalC6 1).map Meeting.wordCount = some (some 3)
    ∧ (getMeetingTranscript finalC6 1).map TranscriptSegment.text = ["hello world"]
    ∧ transcriptTokenCount finalC6 1 = 2
    ∧ jsSplitWsLen "Alice: hello world" = 3 := by
  refine ⟨?_, ?_, ?_, ?_, ?_⟩ <;> decide

/-- Claim C6, amended: in full-conversation mode the stored wordCount
equals the JS split(/\s+/) count of the raw transcription text handed to
processCompleteAudio — not, in general, the token count of the stored
transcript, from which it differs whenever speaker extraction rewrites
the segment text (in chunked mode addTranscriptSegment accumulates the
split count of each stored segment text instead). -/
theorem claim_c6_wordcount_from_raw_text (sumApi : Except Unit RawSummary)
    (sttText : String) (st : Storage) (now : Int) (meetingId : Int) (m : Meeting)
    (hm : getMeeting st meetingId = some m)
    (hne : jsTrim sttText ≠ "") :
    (getMeeting (processCompleteAudio sumApi sttText st now meetingId).1 meetingId).map
        Meeting.wordCount
      = some (some (Int.ofNat (jsSplitWsLen sttText))) := by
  obtain ⟨m1, hm1⟩ := getMeeting_serviceAdd_isSome st now meetingId sttText none none m hm
  unfold processCompleteAudio
  rw [if_pos (by simpa using hne)]
  dsimp only
  rw [hm1]
  dsimp only
  rw [wordCount_generateSummary, getMeeting_updateMeeting_self, hm1]
  rfl

/-- Claim C6 amended, witness: the raw text "Alice: hello world" yields a
stored wordCount of 3 on the completed meeting. -/
theorem claim_c6_witness :
    (getMeeting (processCompleteAudio (Except.error ()) "Alice: hello world"
        stCompleted 5 1).1 1).map Meeting.wordCount
      = some (some (Int.ofNat (jsSplitWsLen "Alice: hello world"))) :=
  claim_c6_wordcount_from_raw_text (Except.error ()) "Alice: hello world"
    stCompleted 5 1 mCompleted (by decide) (by decide)

/-! ### Chat-context helper lemmas (claim C8) -/

theorem getMeetingContext_foldl_init (st : Storage) (l : List Int) (init : String) :
    l.foldl (fun ctx id => ctx ++ meetingBlock st id) init
      = init ++ l.foldl (fun ctx id => ctx ++ meetingBlock st id) "" := by
  induction l generalizing init with
  | nil => simp
  | cons a t ih =>
    rw [List.foldl_cons, List.foldl_cons, ih, ih ("" ++ meetingBlock st a)]
    simp [String.append_assoc]

theorem getMeetingContext_cons (st : Storage) (i : Int) (l : List Int) :
    getMeetingContext st (i :: l) = meetingBlock st i ++ getMeetingContext st l := by
  unfold getMeetingContext
  rw [List.foldl_cons, getMeetingContext_foldl_init]
  simp

theorem discussionPart_take (segs : List TranscriptSegment) :
    discussionPart segs = discussionPart (segs.take 10) := by
  unfold discussionPart
  rw [List.take_take, min_self, List.length_take]
  by_cases h : 0 < segs.length
  · rw [if_pos h, if_pos (by omega)]
  · rw [if_neg h, if_neg (by omega)]

theorem mem_getWorkspaceMeetings (st : Storage) (ws : Int) (limit : Nat) (m : Meeting)
    (hm : m ∈ getWorkspaceMeetings st ws limit) : m.workspaceId = ws := by
  unfold getWorkspaceMeetings at hm
  have h1 : m ∈ (st.meetings.filter (fun x => x.workspaceId == ws)).insertionSort createdDesc :=
    (List.take_sublist _ _).subset hm
  have h2 : m ∈ st.meetings.filter (fun x => x.workspaceId == ws) :=
    (List.mem_insertionSort createdDesc).mp h1
  simpa using (List.mem_filter.mp h2).2

theorem sorted_getWorkspaceMeetings (st : Storage) (ws : Int) (limit : Nat) :
    List.Sorted createdDesc (getWorkspaceMeetings st ws limit) :=
  List.Pairwise.sublist (List.take_sublist _ _)
    (List.sorted_insertionSort createdDesc (st.meetings.filter (fun x => x.workspaceId == ws)))

/-- A workspace meeting left out of the ORDER BY created_at DESC LIMIT n
prefix is no newer than any meeting inside it. -/
theorem dropped_meeting_older (st : Storage) (ws : Int) (limit : Nat) (m : Meeting)
    (hmem : m ∈ st.meetings) (hws : m.workspaceId = ws)
    (hout : m ∉ getWorkspaceMeetings st ws limit) :
    ∀ m2, m2 ∈ getWorkspaceMeetings st ws limit → m.createdAt ≤ m2.createdAt := by
  intro m2 hm2
  set sortedL := (st.meetings.filter (fun x => x.workspaceId == ws)).insertionSort createdDesc
  have hmsort : m ∈ sortedL := by
    rw [List.mem_insertionSort]
    exact List.mem_filter.mpr ⟨hmem, by simpa using hws⟩
  have hsplit : sortedL = sortedL.take limit ++ sortedL.drop limit :=
    (List.take_append_drop limit sortedL).symm
  have hdrop : m ∈ sortedL.drop limit := by
    rcases List.mem_append.mp (hsplit ▸ hmsort) with h | h
    · exact absurd h hout
    · exact h
  have hpair : List.Pairwise createdDesc (sortedL.take limit ++ sortedL.drop limit) := by
    rw [← hsplit]
    exact List.sorted_insertionSort createdDesc _
  exact (List.pairwise_append.mp hpair).2.2 m2 hm2 m hdrop

/-- Claim C8: with meetingIds absent or empty, the chat context is built
exactly over the five most recent meetings of the workspace (ORDER BY
created_at DESC LIMIT 5: at most five, all from the workspace, newest
first, and no left-out workspace meeting is newer than an included one);
with a non-empty explicit list the context is built over exactly those
ids in the given order (a missing id contributes an empty block), and a
block never uses more than the first ten transcript segments. -/
theorem claim_c8_chat_context (st : Storage) (ws : Int) :
    chatContext st ws none
      = getMeetingContext st ((getWorkspaceMeetings st ws 5).map (fun m => m.id))
    ∧ chatContext st ws (some [])
      = getMeetingContext st ((getWorkspaceMeetings st ws 5).map (fun m => m.id))
    ∧ (∀ l, l ≠ [] → chatContext st ws (some l) = getMeetingContext st l)
    ∧ getMeetingContext st [] = ""
    ∧ (∀ i l, getMeetingContext st (i :: l) = meetingBlock st i ++ getMeetingContext st l)
    ∧ (∀ i, getMeetingWithDetails st i = none → meetingBlock st i = "")
    ∧ (∀ segs, discussionPart segs = discussionPart (segs.take 10))
    ∧ (getWorkspaceMeetings st ws 5).length ≤ 5
    ∧ (∀ m, m ∈ getWorkspaceMeetings st ws 5 → m.workspaceId = ws)
    ∧ List.Sorted createdDesc (getWorkspaceMeetings st ws 5)
    ∧ (∀ m, m ∈ st.meetings → m.workspaceId = ws → m ∉ getWorkspaceMeetings st ws 5 →
        ∀ m2, m2 ∈ getWorkspaceMeetings st ws 5 → m.createdAt ≤ m2.createdAt) := by
  refine ⟨rfl, rfl, ?_, rfl, getMeetingContext_cons st, ?_, discussionPart_take, ?_, ?_, ?_, ?_⟩
  · intro l hl
    cases l with
    | nil => exact absurd rfl hl
    | cons a t => simp [chatContext]
  · intro i h
    simp [meetingBlock, h]
  · exact List.length_take_le 5 _
  · intro m hm
    exact mem_getWorkspaceMeetings st ws 5 m hm
  · exact sorted_getWorkspaceMeetings st ws 5
  · intro m hmem hws hout
    exact dropped_meeting_older st ws 5 m hmem hws hout

/-- Claim C8, witness: an explicit non-empty list selects exactly those
ids; a missing id yields an empty block; and in the six-meeting workspace
the excluded oldest meeting is no newer than an included one. -/
theorem claim_c8_witness :
    chatContext stChat 1 (some [2]) = getMeetingContext stChat [2]
    ∧ meetingBlock stChat 99 = ""
    ∧ (chatMeeting 1 10).createdAt ≤ (chatMeeting 2 20).createdAt := by
  obtain ⟨-, -, h3, -, -, h6, -, -, -, -, h11⟩ := claim_c8_chat_context stChat 1
  refine ⟨h3 [2] (by decide), h6 99 (by decide), ?_⟩
  exact h11 (chatMeeting 1 10) (by decide) (by decide) (by decide) (chatMeeting 2 20) (by decide)

/-- Claim C1, counterexample.  The stop-meeting handler nulls only
currentMeetingId; audioChunks survives the end of the session, so after
endSession and an immediate beginSession on the same meeting id, the
first flush of the new session sends a buffer that still contains the
800 bytes ingested before the endSession (chunkA and chunkB), and that
1200-byte combined buffer is above the small-buffer guard, so it is
really submitted to the Speech-to-Text Gateway. -/
theorem claim_c1_counterexample :
    (wsRun procEmpty traceC1 ⟨none, [], 0⟩).2 =
      [WsEvent.send (ServerMsg.meetingStarted 7),
       WsEvent.send ServerMsg.meetingStopped,
       WsEvent.send (ServerMsg.meetingStarted 7),
       WsEvent.processAudio 7 (chunkA ++ chunkB ++ chunkC)]
    ∧ (1 : Nat) ∈ chunkA ++ chunkB ++ chunkC
    ∧ transcribeAudioRev1 apiOk (chunkA ++ chunkB ++ chunkC)
        = ("", [chunkA ++ chunkB ++ chunkC]) := by
  have hlen : (chunkA ++ chunkB ++ chunkC).length = 1200 := by
    simp [chunkA, chunkB, chunkC]
  refine ⟨?_, ?_, ?_⟩
  · simp [wsRun, wsStep, traceC1, procEmpty, jsTrim_empty, List.append_assoc]
  · simp [chunkA, List.mem_append, List.mem_replicate]
  · simp only [transcribeAudioRev1, hlen, apiOk, jsTrim_empty]
    norm_num

/-- Claim C1, amended: ending a session does not clear the audio buffer
(neither does beginning one); stop-meeting only nulls the current meeting
pointer, and the buffer is emptied only when an accumulated batch is
flushed, so audio ingested before endSession can appear in a buffer
flushed to the gateway in a later session on the same connection. -/
theorem claim_c1_stop_keeps_buffer (proc : Int → List Nat → Except Unit String)
    (now : Int) (s : ConnState) (mid : Int) :
    ((wsStep proc now s (WsInbound.valid ClientMsg.stopMeeting)).1.audioChunks = s.audioChunks)
    ∧ ((wsStep proc now s (WsInbound.valid (ClientMsg.startMeeting mid))).1.audioChunks
        = s.audioChunks)
    ∧ (∀ cmid, s.currentMeetingId = some cmid → cmid ≠ 0 →
        (wsStep proc now s (WsInbound.valid ClientMsg.stopMeeting)).1
          = { s with currentMeetingId := none }) := by
  refine ⟨?_, rfl, ?_⟩
  · cases h : s.currentMeetingId with
    | none => simp [wsStep, h]
    | some cmid =>
      simp only [wsStep, h]
      split <;> rfl
  · intro cmid h hne
    simp [wsStep, h, hne]

/-- Claim C1 amended, witness at a concrete state. -/
theorem claim_c1_witness :
    ((wsStep procEmpty 0 ⟨some 7, [[9]], 0⟩ (WsInbound.valid ClientMsg.stopMeeting)).1.audioChunks
      = [[9]])
    ∧ ((wsStep procEmpty 0 ⟨some 7, [[9]], 0⟩ (WsInbound.valid ClientMsg.stopMeeting)).1
        = ⟨none, [[9]], 0⟩) :=
  ⟨(claim_c1_stop_keeps_buffer procEmpty 0 ⟨some 7, [[9]], 0⟩ 5).1,
   (claim_c1_stop_keeps_buffer procEmpty 0 ⟨some 7, [[9]], 0⟩ 5).2.2 7 rfl (by decide)⟩

/-- Claim C5, counterexample.  With meeting 7 active, an audio-chunk
message claiming meetingId 42 is not dropped: its bytes are appended to
the connection buffer (under meeting 7), so the mismatched call is not a
no-op. -/
theorem claim_c5_counterexample :
    wsStep procEmpty 0 ⟨some 7, [], 0⟩ (WsInbound.valid (ClientMsg.audioChunk 42 [9]))
      = (⟨some 7, [[9]], 0⟩, [])
    ∧ ([[9]] : List (List Nat)) ≠ [] := by
  refine ⟨?_, ?_⟩ <;> decide

/-- Claim C5, amended: the audio-chunk handler never reads the payload
meetingId; whenever a session is active the chunk is handled under the
active meeting id regardless of the payload meetingId, and only when no
session is active is the message dropped, silently, with no buffering, no
gateway call and no reply. -/
theorem claim_c5_audio_ignores_payload_id (proc : Int → List Nat → Except Unit String)
    (now : Int) (s : ConnState) (mid midOther : Int) (audio : List Nat) :
    wsStep proc now s (WsInbound.valid (ClientMsg.audioChunk mid audio))
      = wsStep proc now s (WsInbound.valid (ClientMsg.audioChunk midOther audio))
    ∧ (s.currentMeetingId = none →
        wsStep proc now s (WsInbound.valid (ClientMsg.audioChunk mid audio)) = (s, [])) := by
  refine ⟨rfl, ?_⟩
  intro h
  simp [wsStep, h]

/-- Claim C5 amended, witness at a concrete state. -/
theorem claim_c5_witness :
    wsStep procEmpty 0 ⟨none, [], 0⟩ (WsInbound.valid (ClientMsg.audioChunk 42 [9]))
      = (⟨none, [], 0⟩, []) :=
  (claim_c5_audio_ignores_payload_id procEmpty 0 ⟨none, [], 0⟩ 42 5 [9]).2 rfl

/-- Claim C9: a stop-meeting message on a connection with no active
session (currentMeetingId null) changes nothing and sends nothing, and in
particular a second consecutive stop-meeting after a successful one is a
complete no-op. -/
theorem claim_c9_stop_noop (proc : Int → List Nat → Except Unit String)
    (now now2 : Int) (s : ConnState) :
    (s.currentMeetingId = none →
      wsStep proc now s (WsInbound.valid ClientMsg.stopMeeting) = (s, []))
    ∧ (∀ cmid, s.currentMeetingId = some cmid → cmid ≠ 0 →
        wsStep proc now2 (wsStep proc now s (WsInbound.valid ClientMsg.stopMeeting)).1
            (WsInbound.valid ClientMsg.stopMeeting)
          = ((wsStep proc now s (WsInbound.valid ClientMsg.stopMeeting)).1, [])) := by
  constructor
  · intro h
    simp [wsStep, h]
  · intro cmid h hne
    simp [wsStep, h, hne]

/-- Claim C9, witness: both the null-session case and the double-stop
case at concrete states. -/
theorem claim_c9_witness :
    (wsStep procEmpty 0 ⟨none, [], 0⟩ (WsInbound.valid ClientMsg.stopMeeting)
      = (⟨none, [], 0⟩, []))
    ∧ (wsStep procEmpty 1 (wsStep procEmpty 0 ⟨some 7, [], 0⟩
          (WsInbound.valid ClientMsg.stopMeeting)).1 (WsInbound.valid ClientMsg.stopMeeting)
        = ((wsStep procEmpty 0 ⟨some 7, [], 0⟩ (WsInbound.valid ClientMsg.stopMeeting)).1, [])) :=
  ⟨(claim_c9_stop_noop procEmpty 0 0 ⟨none, [], 0⟩).1 rfl,
   (claim_c9_stop_noop procEmpty 0 1 ⟨some 7, [], 0⟩).2 7 rfl (by decide)⟩

/-- Claim C10: undecodable JSON draws exactly the error reply with
message "Invalid message format" and leaves the connection state intact;
a decoded message with a type outside the catalogue, and an audio or
stop message arriving with no active session, are ignored silently with
the state unchanged. -/
theorem claim_c10_message_handling (proc : Int → List Nat → Except Unit String)
    (now : Int) (s : ConnState) :
    wsStep proc now s WsInbound.invalidJson
      = (s, [WsEvent.send (ServerMsg.errorMsg "Invalid message format")])
    ∧ wsStep proc now s (WsInbound.valid ClientMsg.otherType) = (s, [])
    ∧ (s.currentMeetingId = none →
        (∀ mid audio,
          wsStep proc now s (WsInbound.valid (ClientMsg.audioChunk mid audio)) = (s, []))
        ∧ wsStep proc now s (WsInbound.valid ClientMsg.stopMeeting) = (s, [])) := by
  refine ⟨rfl, rfl, ?_⟩
  intro h
  constructor
  · intro mid audio
    simp [wsStep, h]
  · simp [wsStep, h]

/-- Claim C10, witness at a concrete state. -/
theorem claim_c10_witness :
    wsStep procEmpty 0 ⟨none, [], 0⟩ WsInbound.invalidJson
      = (⟨none, [], 0⟩, [WsEvent.send (ServerMsg.errorMsg "Invalid message format")])
    ∧ wsStep procEmpty 0 ⟨none, [], 0⟩ (WsInbound.valid (ClientMsg.audioChunk 3 [1]))
      = (⟨none, [], 0⟩, []) :=
  ⟨(claim_c10_message_handling procEmpty 0 ⟨none, [], 0⟩).1,
   ((claim_c10_message_handling procEmpty 0 ⟨none, [], 0⟩).2.2 rfl).1 3 [1]⟩

end MeetMind
